import Mathlib

/-!
Verification of the FlowSprint.AI backend's multi-provider request router
(`EnhancedMcpGateway` in `src/services/metaLlamaService.js` /
`enhancedMcpGateway.js`), its service registry and health monitoring, and
the response-cleaning helper of `src/controllers/aiController.js`.

The JavaScript classes are shallowly embedded as pure Lean functions:
  * the gateway's `services` / `serviceHealth` Maps become total functions
    `String → Option _` updated by pointwise override (mirroring `Map.set`
    / `Map.get`);
  * external provider calls (`generateMindmap`, `generateCode`, …) are
    modelled by an environment record fixing the outcome of each
    provider-method call during one routed request (each call either
    resolves with a payload or rejects with an error message);
  * thrown JavaScript errors become `Except String`;
  * numbers are `Rat` (for latencies / averages) or `Nat` (for counters
    and timestamps);
  * the order of provider `generate` calls and of `updateServiceMetrics`
    calls — which the spec constrains — is returned as an explicit trace.
-/

/-- One entry of the gateway's `services` Map: the per-adapter record
created by `registerService` (the `instance` reference is modelled by the
call environment instead of being stored). -/
structure ServiceRecord where
  healthy : Bool
  lastHealthCheck : Nat
  requestCount : Nat
  avgResponseTime : Rat
  errors : Nat
deriving DecidableEq, Repr

/-- The health-status object returned by an adapter's `healthCheck`
(extra provider-specific fields such as `availableModels` are not
consulted by the gateway and are omitted). -/
structure HealthStatus where
  status : String
  error : Option String
deriving DecidableEq, Repr

/-- One entry of the gateway's `serviceHealth` Map: the stored health
result plus the `lastCheck` timestamp added by `checkAllServicesHealth`. -/
structure StoredHealth where
  result : HealthStatus
  lastCheck : Nat
deriving DecidableEq, Repr

/-- The mutable state of `EnhancedMcpGateway`: the `services` and
`serviceHealth` Maps, as total lookup functions. -/
structure GatewayState where
  services : String → Option ServiceRecord
  serviceHealth : String → Option StoredHealth

/-- The gateway state before any `registerService` call. -/
def emptyGateway : GatewayState :=
  { services := fun _ => none, serviceHealth := fun _ => none }

/-- `registerService(name, service)`: unconditionally `Map.set`s a fresh
record with `healthy: true` and zeroed counters (`now` stands for the
`Date.now()` recorded in `lastHealthCheck`).  The source performs no
duplicate check, so an existing record under the same name is replaced. -/
def registerService (st : GatewayState) (name : String) (now : Nat) :
    GatewayState :=
  { st with services := fun n =>
      if n = name then
        some { healthy := true, lastHealthCheck := now, requestCount := 0,
               avgResponseTime := 0, errors := 0 }
      else st.services n }

/-- `isServiceHealthy(serviceName)`: `service && service.healthy`, i.e.
`false` for an unregistered name. -/
def isServiceHealthy (st : GatewayState) (name : String) : Bool :=
  match st.services name with
  | none => false
  | some s => s.healthy

/-- The in-place mutation performed by `updateServiceMetrics` on one
record: `requestCount++`, `avgResponseTime = (avgResponseTime +
responseTime) / 2`, `errors++` when `!success`. -/
def bumpMetrics (s : ServiceRecord) (responseTime : Rat) (success : Bool) :
    ServiceRecord :=
  { s with requestCount := s.requestCount + 1,
           avgResponseTime := (s.avgResponseTime + responseTime) / 2,
           errors := s.errors + (if success then 0 else 1) }

/-- `updateServiceMetrics(serviceName, responseTime, success)`: mutates
the record if the service is registered, otherwise does nothing. -/
def updateServiceMetrics (st : GatewayState) (name : String)
    (responseTime : Rat) (success : Bool) : GatewayState :=
  match st.services name with
  | none => st
  | some s =>
      { st with services := fun n =>
          if n = name then some (bumpMetrics s responseTime success)
          else st.services n }

/-- One tick of `checkAllServicesHealth`: for every registered service the
adapter's `healthCheck()` outcome (`checks name`, resolving with a
`HealthStatus` or rejecting with an error message) is consulted; on
resolution the raw status plus `lastCheck` is stored and
`healthy = (status === 'healthy')`, `lastHealthCheck = now`; on rejection a
synthetic unhealthy status carrying the error message is stored and only
`healthy` is set to `false` (the catch branch does not touch
`lastHealthCheck`).  Unregistered names are untouched. -/
def checkAllServicesHealth (st : GatewayState)
    (checks : String → Except String HealthStatus) (now : Nat) :
    GatewayState :=
  { services := fun n =>
      (st.services n).map fun r =>
        match checks n with
        | .ok h =>
            { r with healthy := h.status = "healthy", lastHealthCheck := now }
        | .error _ => { r with healthy := false },
    serviceHealth := fun n =>
      if (st.services n).isSome then
        some (match checks n with
          | .ok h => { result := h, lastCheck := now }
          | .error e =>
              { result := { status := "unhealthy", error := some e },
                lastCheck := now })
      else st.serviceHealth n }

/-!
## Request routing

`routeRequest` and the per-kind route handlers.  The payload fields the
handlers destructure are modelled as optional strings; an absent JS field
is `none`.  The outcome of each external provider-method call during one
routed request is fixed by a `CallEnv`; the gateway's control flow over
those outcomes is translated from the source.
-/

/-- The request payload fields destructured by the route handlers. -/
structure Payload where
  prompt : Option String := none
  projectDescription : Option String := none
  priority : Option String := none
  requirements : Option String := none
  language : Option String := none
  complexity : Option String := none
  projectIdea : Option String := none
deriving DecidableEq, Repr

/-- `choices?.[0]?.message?.content` navigation target of a chat-style
provider response. -/
structure ChatMessage where
  content : Option String
deriving DecidableEq, Repr

/-- One element of a chat-style response's `choices` array. -/
structure ChatChoice where
  message : ChatMessage
deriving DecidableEq, Repr

/-- The raw resolution value of `cerebrasService.generateMindmapUltraFast`
(the fields navigated by `routeMindmapRequest`). -/
structure CerebrasRaw where
  choices : List ChatChoice
  responseTime : Option Rat
deriving DecidableEq, Repr

/-- Fixes the outcome of each provider-method call made while routing one
request: each field is the settled value of the corresponding promise
(`.ok` = resolved payload, `.error` = rejected with that message).  `α` is
the raw payload type of the chat-completion services and `β` the parsed
mindmap-data type; `jsonParse` models `JSON.parse` over mindmap content
(`none` = parse error) and `textParse` the gateway's text-to-mindmap
conversion `parseTextToMindmap`, which is total and whose output no
routing decision inspects. -/
structure CallEnv (α β : Type) where
  cerebrasMindmap : Except String CerebrasRaw
  openrouterMindmap : Except String α
  metaLlamaCode : Except String α
  openrouterCode : Except String α
  metaLlamaNodeCode : Except String α
  metaLlamaPRD : Except String α
  openrouterPRD : Except String α
  jsonParse : String → Option β
  textParse : String → β

/-- The `routingMetadata` object attached by `routeRequest` on success
(the ISO timestamp is omitted). -/
structure RoutingMetadata where
  responseTime : Rat
  provider : String
  requestType : String
deriving DecidableEq, Repr

/-- The object a route resolves with.  JS fields that a given code path
does not set are `none`: `raw` holds the spread fields of a provider's
chat-completion result (`{...result}`), `data` the parsed mindmap data of
the Cerebras path, and `fallback` / `originalError` are only set by
`handleRoutingFallback`. -/
structure RouteOutput (α β : Type) where
  raw : Option α := none
  data : Option β := none
  provider : String
  model : Option String := none
  responseTime : Option Rat := none
  fallback : Option Bool := none
  originalError : Option String := none
  routingMetadata : Option RoutingMetadata := none
deriving DecidableEq, Repr

/-- The externally visible side-effect order of one `routeRequest` call:
provider names in the order their `generate`-style method was invoked, and
the `updateServiceMetrics` calls made (name, responseTime, success). -/
structure RouteTrace where
  attempts : List String
  metrics : List (String × Rat × Bool)
deriving DecidableEq, Repr

/-- The shared tail of `routeMindmapRequest`: the unconditional fallback
call `openRouterService.generateMindmap(...)` whose result is spread into
`{ ...result, provider: 'openrouter', model: 'llama-4-scout' }`. -/
def mindmapOpenRouterTail {α β : Type} (env : CallEnv α β)
    (attempted : List String) :
    Except String (RouteOutput α β) × List String :=
  match env.openrouterMindmap with
  | .ok r =>
      (.ok { raw := some r, provider := "openrouter",
             model := some "llama-4-scout" }, attempted ++ ["openrouter"])
  | .error e => (.error e, attempted ++ ["openrouter"])

/-- `routeMindmapRequest(payload, options)`: destructures
`priority = 'speed'` (default applied when the field is absent); when the
priority is `'speed'` and `cerebras` is healthy it first tries
`cerebrasService.generateMindmapUltraFast`, extracts
`choices?.[0]?.message?.content` (throwing `'No content in Cerebras
response'` when absent), parses it as JSON with a text-parsing fallback,
and resolves with the Cerebras-tagged result; any error in that block is
caught and falls through to the OpenRouter call, which otherwise serves
the request directly.  The second component lists the providers whose
generate method was called, in order. -/
def routeMindmapRequest {α β : Type} (st : GatewayState) (env : CallEnv α β)
    (p : Payload) : Except String (RouteOutput α β) × List String :=
  let priority := p.priority.getD "speed"
  if priority = "speed" ∧ isServiceHealthy st "cerebras" = true then
    match env.cerebrasMindmap with
    | .ok rawResult =>
        match rawResult.choices.head?.bind (fun c => c.message.content) with
        | some content =>
            let mindmapData :=
              match env.jsonParse content with
              | some d => d
              | none => env.textParse content
            (.ok { data := some mindmapData, provider := "cerebras",
                   model := some "llama3.1-8b",
                   responseTime := rawResult.responseTime }, ["cerebras"])
        | none => mindmapOpenRouterTail env ["cerebras"]
    | .error _ => mindmapOpenRouterTail env ["cerebras"]
  else mindmapOpenRouterTail env []

/-- The shared tail of `routeCodeRequest`: the unconditional
`openRouterService.generateCode(...)` call, spread into
`{ ...result, provider: 'openrouter', model: 'llama-4-maverick' }`. -/
def codeOpenRouterTail {α β : Type} (env : CallEnv α β)
    (attempted : List String) :
    Except String (RouteOutput α β) × List String :=
  match env.openrouterCode with
  | .ok r =>
      (.ok { raw := some r, provider := "openrouter",
             model := some "llama-4-maverick" }, attempted ++ ["openrouter"])
  | .error e => (.error e, attempted ++ ["openrouter"])

/-- `routeCodeRequest(payload, options)`: destructures
`complexity = 'medium'`; when `meta-llama` is healthy and the complexity
is not `'low'` it tries `metaLlamaService.generateCode` first (errors
caught and swallowed), then falls through to OpenRouter. -/
def routeCodeRequest {α β : Type} (st : GatewayState) (env : CallEnv α β)
    (p : Payload) : Except String (RouteOutput α β) × List String :=
  let complexity := p.complexity.getD "medium"
  if isServiceHealthy st "meta-llama" = true ∧ ¬ complexity = "low" then
    match env.metaLlamaCode with
    | .ok r =>
        (.ok { raw := some r, provider := "meta-llama",
               model := some "llama-4-scout" }, ["meta-llama"])
    | .error _ => codeOpenRouterTail env ["meta-llama"]
  else codeOpenRouterTail env []

/-- `routeNodeCodeRequest(payload, options)`: same selection shape as
`routeCodeRequest` but trying `metaLlamaService.generateNodeCode` first;
the fallback is `openRouterService.generateCode` on an enhanced prompt. -/
def routeNodeCodeRequest {α β : Type} (st : GatewayState)
    (env : CallEnv α β) (p : Payload) :
    Except String (RouteOutput α β) × List String :=
  let complexity := p.complexity.getD "medium"
  if isServiceHealthy st "meta-llama" = true ∧ ¬ complexity = "low" then
    match env.metaLlamaNodeCode with
    | .ok r =>
        (.ok { raw := some r, provider := "meta-llama",
               model := some "llama-4-scout" }, ["meta-llama"])
    | .error _ => codeOpenRouterTail env ["meta-llama"]
  else codeOpenRouterTail env []

/-- `routePRDRequest(payload, options)`: destructures
`complexity = 'standard'`; when the complexity is `'comprehensive'` and
`meta-llama` is healthy it tries
`metaLlamaService.generateComprehensivePRD` first (errors swallowed), then
falls through to `openRouterService.generatePRD`.  Neither branch sets a
`model` field. -/
def routePRDRequest {α β : Type} (st : GatewayState) (env : CallEnv α β)
    (p : Payload) : Except String (RouteOutput α β) × List String :=
  let complexity := p.complexity.getD "standard"
  let tail := fun (attempted : List String) =>
    match env.openrouterPRD with
    | .ok r =>
        (Except.ok { raw := some r, provider := "openrouter" :
           RouteOutput α β }, attempted ++ ["openrouter"])
    | .error e => (.error e, attempted ++ ["openrouter"])
  if complexity = "comprehensive" ∧ isServiceHealthy st "meta-llama" = true
  then
    match env.metaLlamaPRD with
    | .ok r =>
        (.ok { raw := some r, provider := "meta-llama" }, ["meta-llama"])
    | .error _ => tail ["meta-llama"]
  else tail []

/-- `getFallbackOrder(requestType)`: the per-kind fallback provider order,
`['openrouter']` for any kind missing from the map (including
`'node-code'`). -/
def getFallbackOrder (requestType : String) : List String :=
  if requestType = "mindmap" then ["openrouter", "meta-llama"]
  else if requestType = "code" then ["openrouter", "meta-llama"]
  else if requestType = "prd" then ["openrouter", "meta-llama"]
  else ["openrouter"]

/-- The provider-method call `handleRoutingFallback`'s `switch` makes for
one candidate service, or `none` when no case matches and `result` stays
`undefined` (e.g. `meta-llama` under `mindmap`, or any service under an
unhandled kind such as `node-code`). -/
def fallbackCall {α β : Type} (env : CallEnv α β)
    (requestType serviceName : String) : Option (Except String α) :=
  if requestType = "mindmap" ∧ serviceName = "openrouter" then
    some env.openrouterMindmap
  else if requestType = "code" ∧ serviceName = "openrouter" then
    some env.openrouterCode
  else if requestType = "code" ∧ serviceName = "meta-llama" then
    some env.metaLlamaCode
  else if requestType = "prd" ∧ serviceName = "openrouter" then
    some env.openrouterPRD
  else if requestType = "prd" ∧ serviceName = "meta-llama" then
    some env.metaLlamaPRD
  else none

/-- The `for (const serviceName of fallbackOrder)` loop of
`handleRoutingFallback`: unhealthy candidates are skipped; a candidate
whose switch case resolves returns `{ ...result, provider, fallback: true,
originalError }`; a thrown fallback error or an `undefined` result moves
to the next candidate; an exhausted order throws the aggregate error. -/
def fallbackLoop {α β : Type} (st : GatewayState) (env : CallEnv α β)
    (requestType : String) (originalError : String) :
    List String → List String → Except String (RouteOutput α β) × List String
  | [], attempted =>
      (.error ("All services failed for " ++ requestType ++
        ". Original error: " ++ originalError), attempted)
  | serviceName :: rest, attempted =>
      if isServiceHealthy st serviceName = true then
        match fallbackCall env requestType serviceName with
        | some (.ok r) =>
            (.ok { raw := some r, provider := serviceName,
                   fallback := some true,
                   originalError := some originalError },
             attempted ++ [serviceName])
        | some (.error _) =>
            fallbackLoop st env requestType originalError rest
              (attempted ++ [serviceName])
        | none => fallbackLoop st env requestType originalError rest attempted
      else fallbackLoop st env requestType originalError rest attempted

/-- `handleRoutingFallback(requestType, payload, options, originalError)`:
walks `getFallbackOrder(requestType)` as in `fallbackLoop`, starting from
no attempted providers. -/
def handleRoutingFallback {α β : Type} (st : GatewayState)
    (env : CallEnv α β) (requestType : String) (originalError : String) :
    Except String (RouteOutput α β) × List String :=
  fallbackLoop st env requestType originalError
    (getFallbackOrder requestType) []

/-- The `switch (requestType)` of `routeRequest`: dispatches to the
per-kind handler, throwing `Unknown request type: <kind>` (with no
provider call) for any other kind. -/
def primaryRoute {α β : Type} (st : GatewayState) (env : CallEnv α β)
    (requestType : String) (p : Payload) :
    Except String (RouteOutput α β) × List String :=
  if requestType = "mindmap" then routeMindmapRequest st env p
  else if requestType = "code" then routeCodeRequest st env p
  else if requestType = "node-code" then routeNodeCodeRequest st env p
  else if requestType = "prd" then routePRDRequest st env p
  else (.error ("Unknown request type: " ++ requestType), [])

/-- `routeRequest(requestType, payload, options)`: runs the per-kind
handler; on resolution it calls
`updateServiceMetrics(result.provider, responseTime, true)` once and
resolves with `{ ...result, routingMetadata }`; on a thrown error it
makes no metrics call and delegates to `handleRoutingFallback`, whose
outcome (success or aggregate error) is returned unchanged.  `elapsed`
is the measured `Date.now() - startTime` of the whole call.  The result
carries the final gateway state and the trace of provider calls and
metrics updates. -/
def routeRequest {α β : Type} (st : GatewayState) (env : CallEnv α β)
    (requestType : String) (p : Payload) (elapsed : Rat) :
    Except String (RouteOutput α β) × GatewayState × RouteTrace :=
  match primaryRoute st env requestType p with
  | (.ok result, attempted) =>
      (.ok { result with
               routingMetadata := some ⟨elapsed, result.provider, requestType⟩ },
       updateServiceMetrics st result.provider elapsed true,
       { attempts := attempted,
         metrics := [(result.provider, elapsed, true)] })
  | (.error e, attempted) =>
      match handleRoutingFallback st env requestType e with
      | (outcome, fallbackAttempted) =>
          (outcome, st,
           { attempts := attempted ++ fallbackAttempted, metrics := [] })

/-- The gateway state right after `initializeServices` registered the
three adapters (all healthy, counters zero). -/
def initialGateway : GatewayState :=
  registerService
    (registerService (registerService emptyGateway "openrouter" 0)
      "cerebras" 0)
    "meta-llama" 0

/-!
## Response cleaning (`AIController.cleanCodeResponse`)

`cleanCodeResponse(code, language)` from `src/controllers/aiController.js`:
returns `''` for missing/empty input, strips markdown code fences
(`/```[\w]*\n?/g` then `/```/g`), drops everything before the first
occurrence of `'\x7b'`, `'function'`, `'const'` or `'import'` when that
index is positive, and trims surrounding whitespace.  The `language`
argument is unused by the function body and omitted.  String processing is
embedded over `List Char`; the fence scanner recurses on fuel (one unit
per consumed character suffices) so that it stays structural.
-/

/-- The backtick character (code point 96). -/
def backtickChar : Char := Char.ofNat 96

/-- JS `\w`: ASCII letters, digits and underscore. -/
def isWordChar (c : Char) : Bool :=
  (('a' ≤ c ∧ c ≤ 'z') ∨ ('A' ≤ c ∧ c ≤ 'Z') ∨ ('0' ≤ c ∧ c ≤ '9')
    ∨ c = '_' : Bool)

/-- Drops the maximal leading run of `\w` characters (the `[\w]*` part of
the fence regex). -/
def dropWordChars : List Char → List Char
  | [] => []
  | c :: rest => if isWordChar c then dropWordChars rest else c :: rest

/-- Drops one leading newline if present (the `\n?` part of the fence
regex). -/
def dropOneNewline : List Char → List Char
  | [] => []
  | c :: rest => if c = '\n' then rest else c :: rest

/-- Fuelled scanner for `code.replace(/```[\w]*\n?/g, '')`: each
occurrence of three backticks, together with the following word
characters and one optional newline, is deleted; scanning resumes after
the deleted segment (JS `g`-flag semantics, non-overlapping, left to
right). -/
def stripFenceRunsF : Nat → List Char → List Char
  | 0, l => l
  | _ + 1, [] => []
  | fuel + 1, c :: rest =>
      if c = backtickChar then
        match rest with
        | d :: e :: rest2 =>
            if d = backtickChar ∧ e = backtickChar then
              stripFenceRunsF fuel (dropOneNewline (dropWordChars rest2))
            else c :: stripFenceRunsF fuel rest
        | _ => c :: stripFenceRunsF fuel rest
      else c :: stripFenceRunsF fuel rest

/-- `code.replace(/```[\w]*\n?/g, '')` — the list's length is enough fuel
since every step consumes at least one character. -/
def stripFenceRuns (l : List Char) : List Char :=
  stripFenceRunsF l.length l

/-- Fuelled scanner for `code.replace(/```/g, '')`: deletes every
remaining occurrence of three backticks. -/
def stripTicksF : Nat → List Char → List Char
  | 0, l => l
  | _ + 1, [] => []
  | fuel + 1, c :: rest =>
      if c = backtickChar then
        match rest with
        | d :: e :: rest2 =>
            if d = backtickChar ∧ e = backtickChar then
              stripTicksF fuel rest2
            else c :: stripTicksF fuel rest
        | _ => c :: stripTicksF fuel rest
      else c :: stripTicksF fuel rest

/-- `code.replace(/```/g, '')` — the list's length is enough fuel. -/
def stripTicksGo (l : List Char) : List Char :=
  stripTicksF l.length l

/-- `hay.indexOf(needle)` over character lists, counting from `i`. -/
def indexOfSubAux (needle : List Char) : List Char → Nat → Option Nat
  | [], i => if needle.isEmpty then some i else none
  | c :: rest, i =>
      if List.isPrefixOf needle (c :: rest) then some i
      else indexOfSubAux needle rest (i + 1)

/-- JS `hay.indexOf(needle)` (as `Option`: `none` for `-1`). -/
def indexOfSub (needle hay : List Char) : Option Nat :=
  indexOfSubAux needle hay 0

/-- The `codeStart` chain of `cleanCodeResponse`: index of the first
`'\x7b'`, else of `'function'`, else of `'const'`, else of `'import'`,
else `0`. -/
def codeStartIndex (cs : List Char) : Nat :=
  match indexOfSub ['{'] cs with
  | some i => i
  | none =>
      match indexOfSub "function".toList cs with
      | some i => i
      | none =>
          match indexOfSub "const".toList cs with
          | some i => i
          | none =>
              match indexOfSub "import".toList cs with
              | some i => i
              | none => 0

/-- JS `String.prototype.trim`: removes leading and trailing whitespace
characters. -/
def trimChars (l : List Char) : List Char :=
  ((l.dropWhile Char.isWhitespace).reverse.dropWhile
    Char.isWhitespace).reverse

/-- `cleanCodeResponse(code, language)`.  `none` models a missing
argument; a missing or empty string short-circuits to `''` (JS `!code`). -/
def cleanCodeResponse (code : Option String) : String :=
  match code with
  | none => ""
  | some s =>
      if s = "" then ""
      else
        let cs := stripTicksGo (stripFenceRuns s.toList)
        let codeStart := codeStartIndex cs
        let cs2 := if codeStart > 0 then cs.drop codeStart else cs
        String.mk (trimChars cs2)

/-!
## Adapter health checks

Each concrete service's `healthCheck` wraps its whole body — the
transport call and the construction of the status object — in
`try/catch` and returns a status object from both branches.  The
transport call's outcome is the function's argument.
-/

/-- The resolution value of `MetaLlamaService.makeRequest`
(`generated_text` is always a string — `... || ''`). -/
structure MetaLlamaRaw where
  generated_text : String
  responseTime : Rat
deriving DecidableEq, Repr

/-- `OpenRouterService.healthCheck`: `GET /models`; resolution yields
`status: 'healthy'`, a thrown transport error is caught and yields
`status: 'unhealthy'` with the error message. -/
def openRouterHealthCheck (transport : Except String Nat) : HealthStatus :=
  match transport with
  | .ok _ => { status := "healthy", error := none }
  | .error e => { status := "unhealthy", error := some e }

/-- `CerebrasService.healthCheck`: a tiny chat completion; resolution
yields `status: 'healthy'`, a caught error yields `status: 'unhealthy'`
with the message. -/
def cerebrasHealthCheck (transport : Except String Unit) : HealthStatus :=
  match transport with
  | .ok _ => { status := "healthy", error := none }
  | .error e => { status := "unhealthy", error := some e }

/-- `MetaLlamaService.healthCheck`: a tiny `makeRequest`; resolution
yields `status: 'healthy'` (`generated_text.trim()` cannot throw since
`generated_text` is always a string), a caught error yields
`status: 'unhealthy'` with the message. -/
def metaLlamaHealthCheck (transport : Except String MetaLlamaRaw) :
    HealthStatus :=
  match transport with
  | .ok _ => { status := "healthy", error := none }
  | .error e => { status := "unhealthy", error := some e }

/-!
## Shared concrete material for witnesses and counterexamples
-/

deriving instance DecidableEq for Except

/-- An environment in which every provider call rejects with `boom`. -/
def envAllFail : CallEnv Unit Unit :=
  { cerebrasMindmap := .error "boom"
    openrouterMindmap := .error "boom"
    metaLlamaCode := .error "boom"
    openrouterCode := .error "boom"
    metaLlamaNodeCode := .error "boom"
    metaLlamaPRD := .error "boom"
    openrouterPRD := .error "boom"
    jsonParse := fun _ => none
    textParse := fun _ => () }

/-- An environment in which the Cerebras mindmap call rejects once and the
OpenRouter mindmap call resolves. -/
def envCerebrasDown : CallEnv Unit Unit :=
  { cerebrasMindmap := .error "cerb down"
    openrouterMindmap := .ok ()
    metaLlamaCode := .error "boom"
    openrouterCode := .error "boom"
    metaLlamaNodeCode := .error "boom"
    metaLlamaPRD := .error "boom"
    openrouterPRD := .error "boom"
    jsonParse := fun _ => none
    textParse := fun _ => () }

/-- A mindmap payload with `priority: 'speed'` set explicitly. -/
def speedPayload : Payload := { priority := some "speed" }

/-!
## Registry metrics (claim C6)
-/

/-- The per-record effect of one `updateServiceMetrics` call on the named
service's record. -/
theorem updateServiceMetrics_lookup (st : GatewayState) (name : String)
    (rt : Rat) (success : Bool) :
    (updateServiceMetrics st name rt success).services name =
      (st.services name).map (fun r => bumpMetrics r rt success) := by
  unfold updateServiceMetrics
  cases h : st.services name <;> simp [h]

/-- Folding `updateServiceMetrics` calls over a state folds `bumpMetrics`
over the named record. -/
theorem foldl_updateServiceMetrics_lookup (name : String)
    (calls : List (Rat × Bool)) :
    ∀ (st : GatewayState) (r : ServiceRecord), st.services name = some r →
      ((calls.foldl (fun s c => updateServiceMetrics s name c.1 c.2)
          st).services name) =
        some (calls.foldl (fun r c => bumpMetrics r c.1 c.2) r) := by
  induction calls with
  | nil => intro st r h; simpa using h
  | cons c cs ih =>
      intro st r h
      simp only [List.foldl_cons]
      exact ih _ _ (by rw [updateServiceMetrics_lookup, h]; rfl)

/-- Folding `bumpMetrics` computes the counters componentwise: the request
count grows by the number of calls, the error count by the number of
failed calls, and the average folds `avg = (avg + rt) / 2`. -/
theorem foldl_bumpMetrics (calls : List (Rat × Bool)) :
    ∀ r : ServiceRecord,
      calls.foldl (fun r c => bumpMetrics r c.1 c.2) r =
        { healthy := r.healthy, lastHealthCheck := r.lastHealthCheck,
          requestCount := r.requestCount + calls.length,
          avgResponseTime :=
            calls.foldl (fun a c => (a + c.1) / 2) r.avgResponseTime,
          errors := r.errors + (calls.filter (fun c => !c.2)).length } := by
  induction calls with
  | nil => intro r; simp
  | cons c cs ih =>
      intro r
      simp only [List.foldl_cons, List.filter_cons, ih (bumpMetrics r c.1 c.2)]
      cases hs : c.2 <;>
        simp [bumpMetrics, hs, Nat.add_assoc, Nat.add_comm 1, Nat.succ_eq_add_one]

/-- C6 (confirmed).  For every registered adapter and every sequence of
`N` recorded attempts with latencies `L1..LN`: starting from the freshly
registered record, `requestCount` grows by exactly one per call (ending
at `N`), `errors` grows by exactly one per call with `success = false`,
and `avgResponseTime` equals the fold `avg_i = (avg_(i-1) + L_i) / 2`
with `avg_0 = 0`. -/
theorem recordAttempt_fold_spec (st : GatewayState) (name : String)
    (now : Nat) (calls : List (Rat × Bool)) :
    ((calls.foldl (fun s c => updateServiceMetrics s name c.1 c.2)
        (registerService st name now)).services name) =
      some { healthy := true, lastHealthCheck := now,
             requestCount := calls.length,
             avgResponseTime := calls.foldl (fun a c => (a + c.1) / 2) 0,
             errors := (calls.filter (fun c => !c.2)).length } := by
  rw [foldl_updateServiceMetrics_lookup name calls (registerService st name now)
      { healthy := true, lastHealthCheck := now, requestCount := 0,
        avgResponseTime := 0, errors := 0 }
      (by simp [registerService])]
  rw [foldl_bumpMetrics]
  simp

/-!
## Health monitoring (claims C7, C8, C10)
-/

/-- C7 (confirmed).  After a monitor tick, every registered adapter's
`healthy` flag equals whether its most recent `healthCheck` resolved with
`status: 'healthy'`: an unhealthy or thrown check sets it to `false`
(storing a synthetic unhealthy status carrying the error message when the
check throws), a later healthy tick sets it back to `true` (the same
equation applied to the later tick), and `isServiceHealthy` is `false`
for any unregistered name. -/
theorem healthMonitor_tick (st : GatewayState)
    (checks : String → Except String HealthStatus) (now : Nat)
    (name : String) :
    (∀ r, st.services name = some r →
        isServiceHealthy (checkAllServicesHealth st checks now) name =
          (match checks name with
           | .ok h => decide (h.status = "healthy")
           | .error _ => false) ∧
        (checkAllServicesHealth st checks now).serviceHealth name =
          some (match checks name with
            | .ok h => { result := h, lastCheck := now }
            | .error e =>
                { result := { status := "unhealthy", error := some e },
                  lastCheck := now })) ∧
    (st.services name = none → isServiceHealthy st name = false) := by
  constructor
  · intro r hr
    constructor
    · unfold isServiceHealthy checkAllServicesHealth
      cases hc : checks name <;> simp [hr, hc]
    · unfold checkAllServicesHealth
      cases hc : checks name <;> simp [hr, hc]
  · intro h
    unfold isServiceHealthy
    rw [h]

/-- Witness for C7: on the initial gateway an unhealthy check result for
`cerebras` flips its `healthy` flag to `false`. -/
theorem healthMonitor_tick_witness :
    isServiceHealthy
      (checkAllServicesHealth initialGateway
        (fun _ => .ok { status := "unhealthy", error := some "bad" }) 7)
      "cerebras" = false := by
  have h := ((healthMonitor_tick initialGateway
      (fun _ => .ok { status := "unhealthy", error := some "bad" }) 7
      "cerebras").1
    { healthy := true, lastHealthCheck := 0, requestCount := 0,
      avgResponseTime := 0, errors := 0 } (by decide)).1
  simpa using h

/-- C8 (amended; the source has no duplicate check).  `registerService`
always installs a fresh record with `healthy = true` and all counters
zero under the given name — including when the name is already
registered, whose record it overwrites and resets. -/
theorem registerService_overwrites (st : GatewayState) (name : String)
    (now : Nat) :
    (registerService st name now).services name =
      some { healthy := true, lastHealthCheck := now, requestCount := 0,
             avgResponseTime := 0, errors := 0 } := by
  simp [registerService]

/-- Counterexample for C8 as stated: registering `openrouter` again after
one recorded attempt does not fail and does not leave the existing record
unchanged — it resets `requestCount` from 1 back to 0. -/
theorem registerService_duplicate_counterexample :
    (((updateServiceMetrics (registerService emptyGateway "openrouter" 0)
        "openrouter" 10 true).services "openrouter").map
      (fun r => r.requestCount)) = some 1 ∧
    (((registerService
        (updateServiceMetrics (registerService emptyGateway "openrouter" 0)
          "openrouter" 10 true) "openrouter" 0).services "openrouter").map
      (fun r => r.requestCount)) = some 0 := by
  constructor <;> decide

/-- C10 (confirmed).  Each concrete adapter's `healthCheck` is total over
the transport call's outcome: it always returns a status object whose
`status` is `'healthy'` or `'unhealthy'`, and a thrown transport error is
captured in the returned `error` field instead of propagating — so the
health monitor's thrown-error branch cannot fire for these adapters. -/
theorem adapter_healthCheck_total :
    (∀ t : Except String Nat,
        ((openRouterHealthCheck t).status = "healthy" ∨
         (openRouterHealthCheck t).status = "unhealthy") ∧
        ∀ e, t = .error e →
          openRouterHealthCheck t =
            { status := "unhealthy", error := some e }) ∧
    (∀ t : Except String Unit,
        ((cerebrasHealthCheck t).status = "healthy" ∨
         (cerebrasHealthCheck t).status = "unhealthy") ∧
        ∀ e, t = .error e →
          cerebrasHealthCheck t =
            { status := "unhealthy", error := some e }) ∧
    (∀ t : Except String MetaLlamaRaw,
        ((metaLlamaHealthCheck t).status = "healthy" ∨
         (metaLlamaHealthCheck t).status = "unhealthy") ∧
        ∀ e, t = .error e →
          metaLlamaHealthCheck t =
            { status := "unhealthy", error := some e }) := by
  refine ⟨fun t => ⟨?_, ?_⟩, fun t => ⟨?_, ?_⟩, fun t => ⟨?_, ?_⟩⟩ <;>
    cases t <;>
      simp [openRouterHealthCheck, cerebrasHealthCheck, metaLlamaHealthCheck]

/-- Witness for C10: a thrown OpenRouter transport error surfaces as a
resolved unhealthy status carrying the message. -/
theorem adapter_healthCheck_total_witness :
    openRouterHealthCheck (.error "socket hang up") =
      { status := "unhealthy", error := some "socket hang up" } :=
  (adapter_healthCheck_total.1 (.error "socket hang up")).2
    "socket hang up" rfl

/-!
## Primary selection for mindmaps (claim C1)
-/

/-- The OpenRouter tail of the mindmap route appends exactly one
`openrouter` attempt. -/
theorem mindmapOpenRouterTail_attempts {α β : Type} (env : CallEnv α β)
    (atts : List String) :
    (mindmapOpenRouterTail env atts).2 = atts ++ ["openrouter"] := by
  unfold mindmapOpenRouterTail
  cases h : env.openrouterMindmap <;> simp [h]

/-- C1 (amended; the handler defaults a missing `priority` to `'speed'`).
The Cerebras adapter is the first provider attempted for a mindmap route
if and only if the payload's priority — with an absent field defaulting
to `'speed'` — equals `'speed'` and the registry marks `cerebras`
healthy; in every other case the only provider invoked is `openrouter`. -/
theorem mindmap_primary_selection {α β : Type} (st : GatewayState)
    (env : CallEnv α β) (p : Payload) :
    ((routeMindmapRequest st env p).2.head? = some "cerebras" ↔
      (p.priority.getD "speed" = "speed" ∧
        isServiceHealthy st "cerebras" = true)) ∧
    (¬ (p.priority.getD "speed" = "speed" ∧
          isServiceHealthy st "cerebras" = true) →
      (routeMindmapRequest st env p).2 = ["openrouter"]) := by
  unfold routeMindmapRequest
  by_cases h : p.priority.getD "speed" = "speed" ∧
      isServiceHealthy st "cerebras" = true
  · refine ⟨⟨fun _ => h, fun _ => ?_⟩, fun hn => absurd h hn⟩
    simp only [if_pos h]
    cases hc : env.cerebrasMindmap with
    | error e => rw [mindmapOpenRouterTail_attempts]; rfl
    | ok raw =>
        cases hcontent : raw.choices.head?.bind (fun c => c.message.content)
        · simp only [hcontent]
          rw [mindmapOpenRouterTail_attempts]
          rfl
        · simp only [hcontent]
          rfl
  · refine ⟨⟨fun hh => ?_, fun hh => absurd hh h⟩, fun _ => ?_⟩
    · rw [if_neg h, mindmapOpenRouterTail_attempts] at hh
      simp at hh
    · rw [if_neg h, mindmapOpenRouterTail_attempts]
      rfl

/-- Witness for C1 (amended): with `priority: 'speed'` and `cerebras`
healthy on the initial gateway, `cerebras` is the first provider tried. -/
theorem mindmap_primary_selection_witness :
    (routeMindmapRequest initialGateway envAllFail speedPayload).2.head? =
      some "cerebras" :=
  (mindmap_primary_selection initialGateway envAllFail speedPayload).1.mpr
    (by constructor <;> decide)

/-- Counterexample for C1 as stated: a payload whose `priority` field is
absent does not satisfy `payload.priority == 'speed'`, yet `cerebras`
(healthy on the initial gateway) is still the first provider attempted,
because the handler defaults the missing field to `'speed'`. -/
theorem mindmap_primary_selection_counterexample :
    (routeMindmapRequest initialGateway envAllFail
        ({} : Payload)).2.head? = some "cerebras" ∧
    ({} : Payload).priority ≠ some "speed" := by
  constructor <;> decide

/-!
## Exhausted fallback order (claim C2)
-/

/-- The OpenRouter mindmap tail propagates an OpenRouter rejection. -/
theorem mindmapOpenRouterTail_fst_error {α β : Type} (env : CallEnv α β)
    (atts : List String) (msg : String)
    (h : env.openrouterMindmap = .error msg) :
    (mindmapOpenRouterTail env atts).1 = .error msg := by
  unfold mindmapOpenRouterTail
  rw [h]

/-- The OpenRouter code tail propagates an OpenRouter rejection. -/
theorem codeOpenRouterTail_fst_error {α β : Type} (env : CallEnv α β)
    (atts : List String) (msg : String)
    (h : env.openrouterCode = .error msg) :
    (codeOpenRouterTail env atts).1 = .error msg := by
  unfold codeOpenRouterTail
  rw [h]

/-- When every provider call rejects with `msg`, every per-kind handler
rejects with `msg` (the last primary-path error, which is always the
OpenRouter one since specialist errors are swallowed). -/
theorem primaryRoute_all_fail {α β : Type} (st : GatewayState)
    (env : CallEnv α β) (p : Payload) (msg : String)
    (h1 : env.cerebrasMindmap = .error msg)
    (h2 : env.openrouterMindmap = .error msg)
    (h3 : env.metaLlamaCode = .error msg)
    (h4 : env.openrouterCode = .error msg)
    (h5 : env.metaLlamaNodeCode = .error msg)
    (h6 : env.metaLlamaPRD = .error msg)
    (h7 : env.openrouterPRD = .error msg)
    (kind : String) (hk : kind ∈ ["mindmap", "code", "node-code", "prd"]) :
    (primaryRoute st env kind p).1 = .error msg := by
  simp only [List.mem_cons, List.mem_singleton, List.not_mem_nil, or_false]
    at hk
  rcases hk with hk | hk | hk | hk <;> subst hk <;> unfold primaryRoute
  · simp only [reduceIte]
    unfold routeMindmapRequest
    by_cases hcond : p.priority.getD "speed" = "speed" ∧
        isServiceHealthy st "cerebras" = true
    · rw [if_pos hcond, h1]
      exact mindmapOpenRouterTail_fst_error env _ msg h2
    · rw [if_neg hcond]
      exact mindmapOpenRouterTail_fst_error env _ msg h2
  · simp only [reduceIte]
    unfold routeCodeRequest
    by_cases hcond : isServiceHealthy st "meta-llama" = true ∧
        ¬ p.complexity.getD "medium" = "low"
    · rw [if_pos hcond, h3]
      exact codeOpenRouterTail_fst_error env _ msg h4
    · rw [if_neg hcond]
      exact codeOpenRouterTail_fst_error env _ msg h4
  · simp only [reduceIte]
    unfold routeNodeCodeRequest
    by_cases hcond : isServiceHealthy st "meta-llama" = true ∧
        ¬ p.complexity.getD "medium" = "low"
    · rw [if_pos hcond, h5]
      exact codeOpenRouterTail_fst_error env _ msg h4
    · rw [if_neg hcond]
      exact codeOpenRouterTail_fst_error env _ msg h4
  · show (routePRDRequest st env p).1 = Except.error msg
    unfold routePRDRequest
    by_cases hcond : p.complexity.getD "standard" = "comprehensive" ∧
        isServiceHealthy st "meta-llama" = true
    · rw [if_pos hcond, h6]
      simp only [h7]
    · rw [if_neg hcond]
      simp only [h7]

/-- When no fallback switch case can resolve, the fallback loop ends with
the aggregate error carrying the request kind and the original message. -/
theorem fallbackLoop_error_of_all_fail {α β : Type} (st : GatewayState)
    (env : CallEnv α β) (kind orig : String)
    (h : ∀ name r, fallbackCall env kind name ≠ some (Except.ok r)) :
    ∀ l acc : List String,
      (fallbackLoop st env kind orig l acc).1 =
        .error ("All services failed for " ++ kind ++
          ". Original error: " ++ orig) := by
  intro l
  induction l with
  | nil => intro acc; rfl
  | cons name rest ih =>
      intro acc
      unfold fallbackLoop
      by_cases hh : isServiceHealthy st name = true
      · rw [if_pos hh]
        cases hc : fallbackCall env kind name with
        | none => exact ih _
        | some v =>
            cases v with
            | ok r => exact absurd hc (h name r)
            | error e => exact ih _
      · rw [if_neg hh]
        exact ih _

/-- With every provider call rejecting, no fallback switch case resolves
for any kind and candidate. -/
theorem fallbackCall_never_ok {α β : Type} (env : CallEnv α β)
    (msg : String) (kind : String)
    (h2 : env.openrouterMindmap = .error msg)
    (h3 : env.metaLlamaCode = .error msg)
    (h4 : env.openrouterCode = .error msg)
    (h6 : env.metaLlamaPRD = .error msg)
    (h7 : env.openrouterPRD = .error msg) :
    ∀ name (r : α), fallbackCall env kind name ≠ some (Except.ok r) := by
  intro name r
  unfold fallbackCall
  split_ifs <;> simp [h2, h3, h4, h6, h7]

/-- `routeRequest` on a resolving per-kind handler: one metrics call for
the final provider, `routingMetadata` attached, state updated once. -/
theorem routeRequest_of_primary_ok {α β : Type} (st : GatewayState)
    (env : CallEnv α β) (kind : String) (p : Payload) (elapsed : Rat)
    (r : RouteOutput α β) (atts : List String)
    (hq : primaryRoute st env kind p = (.ok r, atts)) :
    routeRequest st env kind p elapsed =
      (.ok { r with routingMetadata := some ⟨elapsed, r.provider, kind⟩ },
       updateServiceMetrics st r.provider elapsed true,
       { attempts := atts, metrics := [(r.provider, elapsed, true)] }) := by
  unfold routeRequest
  rw [hq]

/-- `routeRequest` on a throwing per-kind handler: the fallback handler's
outcome is returned, the state is untouched and no metrics are
recorded. -/
theorem routeRequest_of_primary_error {α β : Type} (st : GatewayState)
    (env : CallEnv α β) (kind : String) (p : Payload) (elapsed : Rat)
    (e : String) (atts : List String)
    (hq : primaryRoute st env kind p = (.error e, atts)) :
    routeRequest st env kind p elapsed =
      ((handleRoutingFallback st env kind e).1, st,
       { attempts := atts ++ (handleRoutingFallback st env kind e).2,
         metrics := [] }) := by
  unfold routeRequest
  rw [hq]

/-- C2 (amended; the aggregate error does not carry the attempted
provider names).  For every supported request kind, if every candidate
provider call fails, `routeRequest` rejects — never resolving to a
partial or undefined result — with the aggregate error whose message is
exactly `All services failed for <kind>. Original error: <original
message>`: it embeds the original triggering error message and the
request kind, but not the list of attempted provider names. -/
theorem router_all_providers_fail {α β : Type} (st : GatewayState)
    (env : CallEnv α β) (p : Payload) (elapsed : Rat) (msg : String)
    (kind : String) (hk : kind ∈ ["mindmap", "code", "node-code", "prd"])
    (h1 : env.cerebrasMindmap = .error msg)
    (h2 : env.openrouterMindmap = .error msg)
    (h3 : env.metaLlamaCode = .error msg)
    (h4 : env.openrouterCode = .error msg)
    (h5 : env.metaLlamaNodeCode = .error msg)
    (h6 : env.metaLlamaPRD = .error msg)
    (h7 : env.openrouterPRD = .error msg) :
    (routeRequest st env kind p elapsed).1 =
      .error ("All services failed for " ++ kind ++
        ". Original error: " ++ msg) := by
  have hp := primaryRoute_all_fail st env p msg h1 h2 h3 h4 h5 h6 h7 kind hk
  rcases hq : primaryRoute st env kind p with ⟨out, atts⟩
  rw [hq] at hp
  simp only at hp
  subst hp
  rw [routeRequest_of_primary_error st env kind p elapsed msg atts hq]
  show (handleRoutingFallback st env kind msg).1 = _
  unfold handleRoutingFallback
  exact fallbackLoop_error_of_all_fail st env kind msg
    (fallbackCall_never_ok env msg kind h2 h3 h4 h6 h7)
    (getFallbackOrder kind) []

/-- Witness for C2 (amended): on the initial gateway with every provider
rejecting with `boom`, a mindmap route rejects with the aggregate
message. -/
theorem router_all_providers_fail_witness :
    (routeRequest initialGateway envAllFail "mindmap" {} 5).1 =
      .error "All services failed for mindmap. Original error: boom" := by
  have h := router_all_providers_fail initialGateway envAllFail {} 5 "boom"
    "mindmap" (by decide) rfl rfl rfl rfl rfl rfl rfl
  exact h

/-- Counterexample for C2 as stated: in a run of kind `code` where both
candidates fail (after `meta-llama` and `openrouter` were each attempted
twice across the primary path and the fallback handler), the rejection's
message contains neither `openrouter` nor `meta-llama` nor `cerebras` —
the attempted-provider list is not carried by the aggregate failure. -/
theorem router_all_providers_fail_counterexample :
    (routeRequest initialGateway envAllFail "code" {} 5).1 =
      .error "All services failed for code. Original error: boom" ∧
    (routeRequest initialGateway envAllFail "code" {} 5).2.2.attempts =
      ["meta-llama", "openrouter", "openrouter", "meta-llama"] ∧
    indexOfSub "openrouter".toList
      "All services failed for code. Original error: boom".toList = none ∧
    indexOfSub "meta-llama".toList
      "All services failed for code. Original error: boom".toList = none ∧
    indexOfSub "cerebras".toList
      "All services failed for code. Original error: boom".toList = none := by
  refine ⟨by decide, by decide, by decide, by decide, by decide⟩

/-!
## Mindmap fallback result shape (claim C3) and per-attempt metrics
(claim C4)
-/

/-- The `fallback: result.fallback || false` flag the controller
(`AIController.generateMindmap`) places in its response metadata. -/
def controllerFallbackFlag {α β : Type} (r : RouteOutput α β) : Bool :=
  r.fallback.getD false

/-- C3 (amended; the in-handler mindmap fallback sets no fallback flag
and no attempted-provider list exists).  When the Cerebras call throws
once and the OpenRouter call then succeeds (speed priority, `cerebras`
healthy), the route resolves inside `routeMindmapRequest` itself: the
result is tagged `provider: 'openrouter'` with **no** `fallback` field
(so the controller reports `fallback: false`), and the providers
attempted are `cerebras` then `openrouter` — recorded nowhere in the
returned object. -/
theorem mindmap_internal_fallback {α β : Type} (st : GatewayState)
    (env : CallEnv α β) (p : Payload) (elapsed : Rat) (e : String) (r : α)
    (hpriority : p.priority.getD "speed" = "speed")
    (hhealthy : isServiceHealthy st "cerebras" = true)
    (hcer : env.cerebrasMindmap = .error e)
    (hor : env.openrouterMindmap = .ok r) :
    (routeRequest st env "mindmap" p elapsed).1 =
      .ok { raw := some r, provider := "openrouter",
            model := some "llama-4-scout",
            routingMetadata := some ⟨elapsed, "openrouter", "mindmap"⟩ } ∧
    (routeRequest st env "mindmap" p elapsed).2.2.attempts =
      ["cerebras", "openrouter"] ∧
    ((routeRequest st env "mindmap" p elapsed).1.toOption.map
        controllerFallbackFlag) = some false := by
  have hq : primaryRoute st env "mindmap" p =
      (.ok { raw := some r, provider := "openrouter",
             model := some "llama-4-scout" }, ["cerebras", "openrouter"]) := by
    show routeMindmapRequest st env p = _
    unfold routeMindmapRequest
    rw [if_pos ⟨hpriority, hhealthy⟩, hcer]
    unfold mindmapOpenRouterTail
    rw [hor]
    rfl
  rw [routeRequest_of_primary_ok st env "mindmap" p elapsed
      { raw := some r, provider := "openrouter",
        model := some "llama-4-scout" } ["cerebras", "openrouter"] hq]
  exact ⟨rfl, rfl, rfl⟩

/-- Witness for C3 (amended): the concrete Cerebras-throws-once scenario
on the initial gateway. -/
theorem mindmap_internal_fallback_witness :
    (routeRequest initialGateway envCerebrasDown "mindmap" speedPayload
        5).1 =
      .ok { raw := some (), provider := "openrouter",
            model := some "llama-4-scout",
            routingMetadata := some ⟨5, "openrouter", "mindmap"⟩ } :=
  (mindmap_internal_fallback initialGateway envCerebrasDown speedPayload 5
    "cerb down" () (by decide) (by decide) rfl rfl).1

/-- Counterexample for C3 as stated: in that exact scenario the returned
result's `fallback` field is absent (`none`), not `true`, and the result
carries no `attemptedProviders` field at all. -/
theorem mindmap_internal_fallback_counterexample :
    ((routeRequest initialGateway envCerebrasDown "mindmap" speedPayload
        5).1.toOption.map (fun o => o.fallback)) = some none ∧
    some (none : Option Bool) ≠ some (some true) :=
  ⟨by decide, by decide⟩

/-- C4 (amended; metrics are recorded once per route, not once per
attempt).  `updateServiceMetrics` is called exactly once — tagged to the
final provider with the route's total elapsed time and `success = true` —
when the per-kind handler itself resolves, and never otherwise: failed
attempts record nothing, and a route served by the fallback handler
records nothing either. -/
theorem metrics_once_on_primary_success {α β : Type} (st : GatewayState)
    (env : CallEnv α β) (kind : String) (p : Payload) (elapsed : Rat) :
    (routeRequest st env kind p elapsed).2.2.metrics =
      match (primaryRoute st env kind p).1 with
      | .ok r => [(r.provider, elapsed, true)]
      | .error _ => [] := by
  rcases hq : primaryRoute st env kind p with ⟨out, atts⟩
  cases out with
  | ok r =>
      rw [routeRequest_of_primary_ok st env kind p elapsed r atts hq]
  | error e =>
      rw [routeRequest_of_primary_error st env kind p elapsed e atts hq]

/-- Counterexample for C4 as stated: a failed Cerebras attempt followed
by a successful OpenRouter attempt records one metrics call for
`openrouter` only — no call tagged `cerebras` ever happens. -/
theorem metrics_once_counterexample :
    (routeRequest initialGateway envCerebrasDown "mindmap" speedPayload
        5).2.2.attempts = ["cerebras", "openrouter"] ∧
    ((routeRequest initialGateway envCerebrasDown "mindmap" speedPayload
        5).2.2.metrics.map (fun m => m.1)) = ["openrouter"] :=
  ⟨by decide, by decide⟩

/-!
## Unknown request kinds (claim C5)
-/

/-- C5 (amended; the unknown-kind error is routed through the fallback
handler before surfacing).  A `routeRequest` with a kind that has no
routing policy makes zero provider `generate` calls and no metrics calls,
but it does not reject immediately with the unknown-kind error: the
thrown `Unknown request type: <kind>` is caught and handed to
`handleRoutingFallback`, whose loop matches no switch case and rejects
with the aggregate `All services failed ...` error embedding the
unknown-kind message. -/
theorem unknown_kind_routing {α β : Type} (st : GatewayState)
    (env : CallEnv α β) (p : Payload) (elapsed : Rat) (kind : String)
    (h1 : kind ≠ "mindmap") (h2 : kind ≠ "code")
    (h3 : kind ≠ "node-code") (h4 : kind ≠ "prd") :
    (routeRequest st env kind p elapsed).1 =
      .error ("All services failed for " ++ kind ++
        ". Original error: " ++ ("Unknown request type: " ++ kind)) ∧
    (routeRequest st env kind p elapsed).2.2.attempts = [] ∧
    (routeRequest st env kind p elapsed).2.2.metrics = [] := by
  have hq : primaryRoute st env kind p =
      (.error ("Unknown request type: " ++ kind), []) := by
    unfold primaryRoute
    rw [if_neg h1, if_neg h2, if_neg h3, if_neg h4]
  have hc : fallbackCall env kind "openrouter" = none := by
    unfold fallbackCall
    simp [h1, h2, h4]
  have hfb : handleRoutingFallback st env kind
      ("Unknown request type: " ++ kind) =
      (.error ("All services failed for " ++ kind ++
        ". Original error: " ++ ("Unknown request type: " ++ kind)), []) := by
    unfold handleRoutingFallback
    have ho : getFallbackOrder kind = ["openrouter"] := by
      unfold getFallbackOrder
      rw [if_neg h1, if_neg h2, if_neg h4]
    rw [ho]
    unfold fallbackLoop
    by_cases hh : isServiceHealthy st "openrouter" = true
    · rw [if_pos hh, hc]
      rfl
    · rw [if_neg hh]
      rfl
  rw [routeRequest_of_primary_error st env kind p elapsed
      ("Unknown request type: " ++ kind) [] hq, hfb]
  exact ⟨rfl, rfl, rfl⟩

/-- Witness for C5 (amended): the concrete unknown kind `unknown-kind`
on the initial gateway. -/
theorem unknown_kind_routing_witness :
    (routeRequest initialGateway envAllFail "unknown-kind" {} 5).1 =
      .error ("All services failed for unknown-kind. Original error: " ++
        "Unknown request type: unknown-kind") := by
  have h := (unknown_kind_routing initialGateway envAllFail {} 5
    "unknown-kind" (by decide) (by decide) (by decide) (by decide)).1
  exact h.trans (by decide)

/-- Counterexample for C5 as stated: `route('banana', {})` rejects with
the aggregate `All services failed ...` error — not with the immediate
unknown-kind error — although zero provider calls were made. -/
theorem unknown_kind_routing_counterexample :
    (routeRequest initialGateway envAllFail "banana" {} 5).1 =
      .error
        "All services failed for banana. Original error: Unknown request type: banana" ∧
    ("All services failed for banana. Original error: Unknown request type: banana" ≠
      "Unknown request type: banana") ∧
    (routeRequest initialGateway envAllFail "banana" {} 5).2.2.attempts =
      [] :=
  ⟨by decide, by decide, by decide⟩

/-!
## Response cleaning round-trip (claim C9)
-/

/-- C9 (amended; the cleaner is not the identity on flat strings).
`cleanCodeResponse` is total on missing content — a missing or empty
`code` yields the empty string rather than a crash — but it returns a
flat content string unchanged only when fence stripping, the
code-start cut and whitespace trimming are all identities on it; a
string with leading text before a code marker is altered. -/
theorem cleanCodeResponse_spec :
    (cleanCodeResponse none = "" ∧ cleanCodeResponse (some "") = "") ∧
    ∀ s : String, s ≠ "" →
      stripTicksGo (stripFenceRuns s.toList) = s.toList →
      codeStartIndex s.toList = 0 →
      trimChars s.toList = s.toList →
      cleanCodeResponse (some s) = s := by
  refine ⟨⟨rfl, rfl⟩, ?_⟩
  intro s h1 h2 h3 h4
  show (if s = "" then "" else
    let cs := stripTicksGo (stripFenceRuns s.toList)
    let codeStart := codeStartIndex cs
    let cs2 := if codeStart > 0 then cs.drop codeStart else cs
    String.mk (trimChars cs2)) = s
  rw [if_neg h1]
  simp only [h2, h3, gt_iff_lt, lt_self_iff_false, if_false, h4]
  rfl

/-- Witness for C9 (amended): a plain one-character string round-trips. -/
theorem cleanCodeResponse_spec_witness :
    cleanCodeResponse (some "x") = "x" :=
  cleanCodeResponse_spec.2 "x" (by decide) (by decide) (by decide)
    (by decide)

/-- Counterexample for C9 as stated: a flat string with explanation text
before its first code marker is not returned unchanged — everything
before `const` is cut off. -/
theorem cleanCodeResponse_counterexample :
    cleanCodeResponse (some "say: const x = 1;") = "const x = 1;" ∧
    cleanCodeResponse (some "say: const x = 1;") ≠ "say: const x = 1;" :=
  ⟨by decide, by decide⟩
